import Mathlib

/-!
Shallow embedding of `src/main.rs` (a piston-based particle simulation).
`f64`/`f32` values are modelled as real numbers; the random draws made by
`rand` (uniform direction in {-1,0,1}, a Normal-distributed speed, and the
Normal spawn positions) are passed in explicitly as parameters, so every
function is a pure function of the entity state and the sampled values.
-/

namespace Nature

/-- An RGBA colour quadruple, modelling `[f32; 4]`. -/
structure Color where
  r : ℝ
  g : ℝ
  b : ℝ
  a : ℝ

/-- `struct Physics { x, y, size, rotation: f64 }`. -/
structure Physics where
  x : ℝ
  y : ℝ
  size : ℝ
  rotation : ℝ

/-- The three `Drawable` implementors (`Square`, `Arrow`, `Circle`), each
carrying its colour, modelling `Box<dyn Drawable>`. -/
inductive Renderer where
  | square (color : Color)
  | arrow (color : Color)
  | circle (color : Color)

/-- `struct Walker {}` — the only `AI` implementor, a fieldless strategy. -/
structure Walker where

/-- `struct Entity { physics, renderer, behavior: Option<Box<dyn AI>>, _id: u32 }`.
Since `Walker` is the only `AI` implementor, `Option<Box<dyn AI>>` is
modelled as `Option Walker`. -/
structure Entity where
  physics : Physics
  renderer : Renderer
  behavior : Option Walker
  _id : ℕ

/-- The values drawn from `rand` in one call of `Walker::apply_behavior`:
`dx = rng.gen_range(-1..2)`, `dy = rng.gen_range(-1..2)` (both `i16`),
and `speed = Normal(2.0, 1.0).sample(..)` (an `f64`). -/
structure RandomDraw where
  dx : ℤ
  dy : ℤ
  speed : ℝ

/-- `Walker::apply_behavior` (src/main.rs lines 132-177), with the three
random draws passed in explicitly. First `x += dx * speed; y += dy * speed`,
then the `match random_x_direction { -1 => .., 1 => .., _ => .. }` nested
match is rendered as the same decision tree of equality tests; the Rust `_`
catch-all arms become the final `else` branches. -/
noncomputable def Walker.apply_behavior (_w : Walker) (dx dy : ℤ) (speed : ℝ) (entity : Entity) : Entity :=
  let p1 : Physics := { entity.physics with
    x := entity.physics.x + dx * speed
    y := entity.physics.y + dy * speed }
  let p2 : Physics :=
    if dx = -1 then
      if dy = -1 then { p1 with rotation := -Real.pi / 4 }
      else if dy = 1 then { p1 with rotation := -3 * Real.pi / 4 }
      else { p1 with rotation := -Real.pi / 2 }
    else if dx = 1 then
      if dy = -1 then { p1 with rotation := Real.pi / 4 }
      else if dy = 1 then { p1 with rotation := 3 * Real.pi / 4 }
      else { p1 with rotation := Real.pi / 2 }
    else
      if dy = -1 then { p1 with rotation := 0 }
      else if dy = 1 then { p1 with rotation := Real.pi }
      else p1
  { entity with physics := p2 }

/-- `color_generator` (src/main.rs lines 180-186):
`[x / width as f32, y / height as f32, 0.0, 1.0]` (blue is commented out in
the source and fixed at 0). -/
noncomputable def color_generator (x y : ℝ) (width height : ℕ) : Color :=
  let red := x / (width : ℝ)
  let green := y / (height : ℝ)
  { r := red, g := green, b := 0, a := 1 }

set_option linter.unusedVariables false in
/-- `gaussian_dots_generator` (src/main.rs lines 188-214), with the Normal
position draws passed in as `sample : ℕ → ℝ × ℝ` (the x and y drawn for the
entity of a given id). The Rust loop is `for id in 0..300` — the `size`
argument is used only for `Vec::with_capacity`, which does not affect the
contents, so it is unused here. -/
noncomputable def gaussian_dots_generator (size : ℕ) (width height : ℕ)
    (sample : ℕ → ℝ × ℝ) : List Entity :=
  (List.range 300).map fun id =>
    { physics := { x := (sample id).1, y := (sample id).2, size := 10, rotation := 0 }
      renderer := Renderer.circle (color_generator (sample id).1 (sample id).2 width height)
      behavior := some {}
      _id := id }

/-- One entity's step of `App::update` (src/main.rs lines 38-50): if the
entity holds a behaviour, `take()` it out (leaving `None`), invoke
`apply_behavior` on the entity, then store `Some(Box::new(Walker {}))`;
entities without a behaviour are untouched. The random draws of the
invocation are passed in as `d`. -/
noncomputable def updateEntity (d : RandomDraw) (entity : Entity) : Entity :=
  match entity.behavior with
  | some ai =>
      let taken : Entity := { entity with behavior := none }
      let updated := ai.apply_behavior d.dx d.dy d.speed taken
      { updated with behavior := some {} }
  | none => entity

/-- The loop of `App::update` over the entity list, threading the index into
the per-entity draw function `draw` (the i-th entity's random draws are
`draw i`). -/
noncomputable def updateFrom (draw : ℕ → RandomDraw) : ℕ → List Entity → List Entity
  | _, [] => []
  | i, e :: es => updateEntity (draw i) e :: updateFrom draw (i + 1) es

/-- `App::update` (src/main.rs lines 38-50): apply `updateEntity` to every
entity in order. -/
noncomputable def App.update (draw : ℕ → RandomDraw) (entities : List Entity) : List Entity :=
  updateFrom draw 0 entities

/-- Modelled from the spec: the simpler per-entity update the spec's §9
redesign note describes — invoke a Walker against each behaviour-holding
entity in place, with no ownership transfer and no reattachment. -/
noncomputable def updateEntityInPlace (d : RandomDraw) (entity : Entity) : Entity :=
  match entity.behavior with
  | some ai => ai.apply_behavior d.dx d.dy d.speed entity
  | none => entity

/-- Modelled from the spec: the in-place update loop, for comparison with
`App.update`. -/
noncomputable def updateInPlaceFrom (draw : ℕ → RandomDraw) : ℕ → List Entity → List Entity
  | _, [] => []
  | i, e :: es => updateEntityInPlace (draw i) e :: updateInPlaceFrom draw (i + 1) es

/-- Modelled from the spec: the whole in-place update pass. -/
noncomputable def App.update_inplace (draw : ℕ → RandomDraw) (entities : List Entity) :
    List Entity :=
  updateInPlaceFrom draw 0 entities

/-- Iterated update ticks: `ticks draws n` applies `App.update` n times, the
k-th tick using the draw function `draws k`. -/
noncomputable def ticks (draws : ℕ → ℕ → RandomDraw) : ℕ → List Entity → List Entity
  | 0, es => es
  | n + 1, es => App.update (draws n) (ticks draws n es)

/-- The nine rotation values reachable in the simulation: 0 (also the spawn
value) and the eight table headings. -/
noncomputable def rotationSet : Set ℝ :=
  {0, -Real.pi / 4, -Real.pi / 2, -3 * Real.pi / 4,
    Real.pi / 4, Real.pi / 2, 3 * Real.pi / 4, Real.pi}

/-- A shape emitted by a `Drawable::draw` call, before the graphics backend
applies the transform: local vertex coordinates, the translation from
`c.transform.trans(..)`, and the rotation from `.rot_rad(..)` (applied about
the translated origin, after the translation). -/
structure ShapeInstance where
  verts : List (ℝ × ℝ)
  translation : ℝ × ℝ
  rot : ℝ

/-- `Square::draw` (src/main.rs lines 77-84): `rectangle::square(0.0, 0.0, size)`
is the axis-aligned square with corners (0,0) and (size, size), drawn under
`trans(x - size/2, y - size/2).rot_rad(rotation)`. -/
noncomputable def Square.draw (physics : Physics) : ShapeInstance :=
  { verts := [(0, 0), (physics.size, 0), (physics.size, physics.size), (0, physics.size)]
    translation := (physics.x - physics.size / 2, physics.y - physics.size / 2)
    rot := physics.rotation }

/-- `Arrow::draw` (src/main.rs lines 92-107): the triangle
`[(0, -size/2), (-size/3, size/2), (size/3, size/2)]` drawn under
`trans(x, y - size/2).rot_rad(rotation)`. -/
noncomputable def Arrow.draw (physics : Physics) : ShapeInstance :=
  { verts := [(0, -physics.size / 2), (-physics.size / 3, physics.size / 2),
      (physics.size / 3, physics.size / 2)]
    translation := (physics.x, physics.y - physics.size / 2)
    rot := physics.rotation }

/-- `Circle::draw` (src/main.rs lines 115-122): the ellipse inscribed in
`rectangle::square(0.0, 0.0, size)` under `trans(x - size/2, y - size/2)`,
never rotated; the bounding square's corners stand in as the vertex data. -/
noncomputable def Circle.draw (physics : Physics) : ShapeInstance :=
  { verts := [(0, 0), (physics.size, 0), (physics.size, physics.size), (0, physics.size)]
    translation := (physics.x - physics.size / 2, physics.y - physics.size / 2)
    rot := 0 }

/-- The geometric centroid of a shape from its pre-transform vertex
coordinates plus the translation, before the rotation is applied: the vertex
average, shifted by the translation. -/
noncomputable def preRotCentroid (s : ShapeInstance) : ℝ × ℝ :=
  (s.translation.1 + (s.verts.map Prod.fst).sum / (s.verts.length : ℝ),
   s.translation.2 + (s.verts.map Prod.snd).sum / (s.verts.length : ℝ))

end Nature

namespace Nature

/-- `updateFrom` preserves the length of the entity list. -/
theorem updateFrom_length (d : ℕ → RandomDraw) (k : ℕ) (es : List Entity) :
    (updateFrom d k es).length = es.length := by
  induction es generalizing k with
  | nil => rfl
  | cons e es ih => simp [updateFrom, ih]

/-- `App.update` preserves the length of the entity list. -/
theorem update_length (d : ℕ → RandomDraw) (es : List Entity) :
    (App.update d es).length = es.length :=
  updateFrom_length d 0 es

/-- Pointwise description of `updateFrom`: the i-th output entity is the
i-th input entity stepped with the draw at offset k + i. -/
theorem updateFrom_get (d : ℕ → RandomDraw) (k : ℕ) (es : List Entity) (i : ℕ)
    (h : i < es.length) (h2 : i < (updateFrom d k es).length) :
    (updateFrom d k es).get ⟨i, h2⟩ = updateEntity (d (k + i)) (es.get ⟨i, h⟩) := by
  induction es generalizing k i with
  | nil => exact absurd h (by simp)
  | cons e es ih =>
      cases i with
      | zero => rfl
      | succ j =>
          have hj : j < es.length := Nat.lt_of_succ_lt_succ h
          have hj2 : j < (updateFrom d (k + 1) es).length := by
            rw [updateFrom_length]; exact hj
          have := ih (k + 1) j hj hj2
          simpa [updateFrom, Nat.add_assoc, Nat.add_comm 1 j] using this

/-- Pointwise description of `App.update`: the i-th output entity is the
i-th input entity stepped with the i-th draw. -/
theorem update_get (d : ℕ → RandomDraw) (es : List Entity) (i : ℕ)
    (h : i < es.length) (h2 : i < (App.update d es).length) :
    (App.update d es).get ⟨i, h2⟩ = updateEntity (d i) (es.get ⟨i, h⟩) := by
  have := updateFrom_get d 0 es i h h2
  simpa using this

/-- The take-then-reattach step agrees with the in-place step on every
entity: the only behaviour value is the fieldless `Walker`, so reattaching a
fresh one is the identity on the behaviour field. -/
theorem updateEntity_eq_inPlace (d : RandomDraw) (e : Entity) :
    updateEntity d e = updateEntityInPlace d e := by
  rcases e with ⟨p, r, b, i⟩
  cases b with
  | none => rfl
  | some w => cases w; rfl

/-- Every element of `updateFrom` is some input entity stepped with some
draw. -/
theorem mem_updateFrom (d : ℕ → RandomDraw) (k : ℕ) (es : List Entity) (e2 : Entity) :
    e2 ∈ updateFrom d k es → ∃ i, ∃ e ∈ es, e2 = updateEntity (d i) e := by
  induction es generalizing k with
  | nil => intro h; simp [updateFrom] at h
  | cons e es ih =>
      intro h
      rw [updateFrom, List.mem_cons] at h
      rcases h with rfl | h
      · exact ⟨k, e, by simp, rfl⟩
      · obtain ⟨i, e3, he3, rfl⟩ := ih (k + 1) h
        exact ⟨i, e3, by simp [he3], rfl⟩

/-- The i-th spawned entity, written out. -/
theorem spawner_get (size width height : ℕ) (sample : ℕ → ℝ × ℝ) (i : ℕ)
    (hi : i < (gaussian_dots_generator size width height sample).length) :
    (gaussian_dots_generator size width height sample).get ⟨i, hi⟩
      = { physics := { x := (sample i).1, y := (sample i).2, size := 10, rotation := 0 }
          renderer := Renderer.circle (color_generator (sample i).1 (sample i).2 width height)
          behavior := some {}
          _id := i } := by
  simp [gaussian_dots_generator]

/-- Every spawned entity holds the Walker behaviour. -/
theorem spawner_behavior (size width height : ℕ) (sample : ℕ → ℝ × ℝ) (e : Entity)
    (he : e ∈ gaussian_dots_generator size width height sample) : e.behavior = some {} := by
  simp only [gaussian_dots_generator, List.mem_map] at he
  obtain ⟨id, _, rfl⟩ := he
  rfl

/-- Every spawned entity has rotation 0. -/
theorem spawner_rotation (size width height : ℕ) (sample : ℕ → ℝ × ℝ) (e : Entity)
    (he : e ∈ gaussian_dots_generator size width height sample) :
    e.physics.rotation = 0 := by
  simp only [gaussian_dots_generator, List.mem_map] at he
  obtain ⟨id, _, rfl⟩ := he
  rfl

/-- Stepping an entity that holds a behaviour re-arms it with a fresh
Walker. -/
theorem updateEntity_behavior (d : RandomDraw) (e : Entity) (w : Walker)
    (hb : e.behavior = some w) : (updateEntity d e).behavior = some {} := by
  simp [updateEntity, hb, Walker.apply_behavior]

/-- Stepping an entity that holds a behaviour displaces it by exactly
(dx * speed, dy * speed). -/
theorem updateEntity_position (d : RandomDraw) (e : Entity) (w : Walker)
    (hb : e.behavior = some w) :
    (updateEntity d e).physics.x = e.physics.x + (d.dx : ℝ) * d.speed ∧
    (updateEntity d e).physics.y = e.physics.y + (d.dy : ℝ) * d.speed := by
  simp only [updateEntity, hb]
  unfold Walker.apply_behavior
  split_ifs <;> simp

/-- One entity step keeps the rotation inside `rotationSet`: each branch of
the direction table writes a member of the set, and the remaining branches
leave the rotation unchanged. -/
theorem updateEntity_rotation_mem (d : RandomDraw) (e : Entity)
    (h : e.physics.rotation ∈ rotationSet) :
    (updateEntity d e).physics.rotation ∈ rotationSet := by
  rcases hb : e.behavior with _ | w
  · simpa [updateEntity, hb] using h
  · simp only [updateEntity, hb]
    unfold Walker.apply_behavior
    split_ifs <;> first
      | exact h
      | simp [rotationSet]

/-- C1: for every entity and speed, `Walker.apply_behavior` sets the
rotation exactly per the table over the nine (dx, dy) pairs in
{-1,0,1} × {-1,0,1}; the (0,0) case leaves the rotation field unchanged. -/
theorem walker_rotation_table (w : Walker) (e : Entity) (s : ℝ) :
    (w.apply_behavior (-1) (-1) s e).physics.rotation = -Real.pi / 4 ∧
    (w.apply_behavior (-1) 0 s e).physics.rotation = -Real.pi / 2 ∧
    (w.apply_behavior (-1) 1 s e).physics.rotation = -3 * Real.pi / 4 ∧
    (w.apply_behavior 1 (-1) s e).physics.rotation = Real.pi / 4 ∧
    (w.apply_behavior 1 0 s e).physics.rotation = Real.pi / 2 ∧
    (w.apply_behavior 1 1 s e).physics.rotation = 3 * Real.pi / 4 ∧
    (w.apply_behavior 0 (-1) s e).physics.rotation = 0 ∧
    (w.apply_behavior 0 1 s e).physics.rotation = Real.pi ∧
    (w.apply_behavior 0 0 s e).physics.rotation = e.physics.rotation := by
  refine ⟨?_, ?_, ?_, ?_, ?_, ?_, ?_, ?_, ?_⟩ <;> simp [Walker.apply_behavior]

/-- C2: for every entity and all sampled dx, dy, speed,
`Walker.apply_behavior` updates the position to exactly
`x_old + dx * speed` and `y_old + dy * speed`. -/
theorem walker_position_update (w : Walker) (e : Entity) (dx dy : ℤ) (s : ℝ) :
    (w.apply_behavior dx dy s e).physics.x = e.physics.x + dx * s ∧
    (w.apply_behavior dx dy s e).physics.y = e.physics.y + dy * s := by
  unfold Walker.apply_behavior
  split_ifs <;> simp

/-- C3: for every count/size argument, width and height,
`gaussian_dots_generator` returns exactly 300 entities, and the result does
not depend on the count argument at all. -/
theorem spawner_always_300 (size size2 width height : ℕ) (sample : ℕ → ℝ × ℝ) :
    (gaussian_dots_generator size width height sample).length = 300 ∧
    gaussian_dots_generator size width height sample
      = gaussian_dots_generator size2 width height sample := by
  constructor
  · simp [gaussian_dots_generator]
  · rfl

/-- C5: `color_generator` returns exactly `(x/width, y/height, 0, 1)` with no
clamping; in particular for x = 1000, width = 800 the red channel is 1.25,
strictly above 1. -/
theorem color_generator_exact (x y : ℝ) (width height : ℕ) :
    color_generator x y width height
      = { r := x / (width : ℝ), g := y / (height : ℝ), b := 0, a := 1 } ∧
    (color_generator 1000 y 800 height).r = 1.25 ∧ (1 : ℝ) < 1.25 := by
  refine ⟨rfl, ?_, by norm_num⟩
  show (1000 : ℝ) / (800 : ℕ) = 1.25
  norm_num

/-- C4 counterexample: the claim fails for `Arrow.draw`. At the physics state
x = 0, y = 0, size = 6, the triangle's pre-rotation centroid is (0, -2), not
(0, 0) = (P.x, P.y). -/
theorem arrow_centroid_not_at_position :
    preRotCentroid (Arrow.draw { x := 0, y := 0, size := 6, rotation := 0 }) ≠ (0, 0) := by
  intro h
  have h2 := congrArg Prod.snd h
  simp only [Arrow.draw, preRotCentroid, List.map_cons, List.map_nil, List.sum_cons,
    List.sum_nil, List.length_cons, List.length_nil] at h2
  norm_num at h2

/-- C4 amended: for every physics state, `Square.draw` positions its square
with pre-rotation centroid exactly at (P.x, P.y), while `Arrow.draw` places
the triangle's pre-rotation centroid at (P.x, P.y - size/3). -/
theorem draw_centroids (p : Physics) :
    preRotCentroid (Square.draw p) = (p.x, p.y) ∧
    preRotCentroid (Arrow.draw p) = (p.x, p.y - p.size / 3) := by
  constructor <;>
    · simp only [Square.draw, Arrow.draw, preRotCentroid, Prod.ext_iff,
        List.map_cons, List.map_nil, List.sum_cons, List.sum_nil, List.length_cons,
        List.length_nil]
      norm_num
      constructor <;> ring

/-- C7: the i-th entity produced by the spawner has position given by the
i-th sample, size exactly 10, rotation exactly 0, a Circle renderer coloured
by `color_generator` at its position, a Walker behaviour present, and id
equal to its index i. -/
theorem spawner_entity_fields (size width height : ℕ) (sample : ℕ → ℝ × ℝ) (i : ℕ)
    (hi : i < (gaussian_dots_generator size width height sample).length) :
    (gaussian_dots_generator size width height sample).get ⟨i, hi⟩
      = { physics := { x := (sample i).1, y := (sample i).2, size := 10, rotation := 0 }
          renderer := Renderer.circle (color_generator (sample i).1 (sample i).2 width height)
          behavior := some {}
          _id := i } := by
  simp [gaussian_dots_generator]

/-- C7 witness: the claim instantiated at index 0 with the constant sample
(5, 7) and width 800, height 500. -/
theorem spawner_entity_fields_witness :
    (gaussian_dots_generator 300 800 500 fun _ => ((5 : ℝ), (7 : ℝ))).get
        ⟨0, by simp [gaussian_dots_generator]⟩
      = { physics := { x := 5, y := 7, size := 10, rotation := 0 }
          renderer := Renderer.circle (color_generator 5 7 800 500)
          behavior := some {}
          _id := 0 } :=
  spawner_entity_fields 300 800 500 (fun _ => ((5 : ℝ), (7 : ℝ))) 0
    (by simp [gaussian_dots_generator])

/-- C8: the take-then-reattach update pass of `App::update` is
observationally equal, for every entity list and every fixed sequence of
sampled random values, to the in-place update that invokes a Walker against
each behaviour-holding entity without ownership transfer. -/
theorem update_refines_inPlace (draw : ℕ → RandomDraw) (es : List Entity) :
    App.update draw es = App.update_inplace draw es := by
  show updateFrom draw 0 es = updateInPlaceFrom draw 0 es
  generalize 0 = k
  induction es generalizing k with
  | nil => rfl
  | cons e es ih =>
      rw [updateFrom, updateInPlaceFrom, updateEntity_eq_inPlace, ih]

/-- C9: `Walker.apply_behavior` never writes the size field (nor the
renderer, behaviour or id): only x, y and rotation change. -/
theorem walker_frame_size (w : Walker) (dx dy : ℤ) (s : ℝ) (e : Entity) :
    (w.apply_behavior dx dy s e).physics.size = e.physics.size ∧
    (w.apply_behavior dx dy s e).renderer = e.renderer ∧
    (w.apply_behavior dx dy s e).behavior = e.behavior ∧
    (w.apply_behavior dx dy s e)._id = e._id := by
  unfold Walker.apply_behavior
  split_ifs <;> simp

/-- C6 counterexample: the claim as stated fails. With every spawn sample at
(0, 0) and every draw (dx, dy, speed) = (1, 0, 0), entity 0's position after
one update tick equals its pre-tick position, yet its sampled (dx, dy) =
(1, 0) is not (0, 0) — the position may be unchanged even when (dx, dy) is
not (0, 0), because the sampled speed can be 0. -/
theorem update_tick_stated_fails :
    (((App.update (fun _ => ⟨1, 0, 0⟩)
          (gaussian_dots_generator 300 800 500 fun _ => ((0 : ℝ), (0 : ℝ)))).get
        ⟨0, by rw [update_length]; simp [gaussian_dots_generator]⟩).physics.x
      = ((gaussian_dots_generator 300 800 500 fun _ => ((0 : ℝ), (0 : ℝ))).get
        ⟨0, by simp [gaussian_dots_generator]⟩).physics.x) ∧
    (((App.update (fun _ => ⟨1, 0, 0⟩)
          (gaussian_dots_generator 300 800 500 fun _ => ((0 : ℝ), (0 : ℝ)))).get
        ⟨0, by rw [update_length]; simp [gaussian_dots_generator]⟩).physics.y
      = ((gaussian_dots_generator 300 800 500 fun _ => ((0 : ℝ), (0 : ℝ))).get
        ⟨0, by simp [gaussian_dots_generator]⟩).physics.y) ∧
    ((1 : ℤ), (0 : ℤ)) ≠ ((0 : ℤ), (0 : ℤ)) := by
  have h1 : 0 < (gaussian_dots_generator 300 800 500 fun _ => ((0 : ℝ), (0 : ℝ))).length := by
    simp [gaussian_dots_generator]
  have h2 : 0 < (App.update (fun _ => ⟨1, 0, 0⟩)
      (gaussian_dots_generator 300 800 500 fun _ => ((0 : ℝ), (0 : ℝ)))).length := by
    rw [update_length]; exact h1
  have hb := spawner_behavior 300 800 500 (fun _ => ((0 : ℝ), (0 : ℝ)))
    ((gaussian_dots_generator 300 800 500 fun _ => ((0 : ℝ), (0 : ℝ))).get ⟨0, h1⟩)
    (List.get_mem _ _ _)
  have hpos := updateEntity_position ⟨1, 0, 0⟩
    ((gaussian_dots_generator 300 800 500 fun _ => ((0 : ℝ), (0 : ℝ))).get ⟨0, h1⟩) {} hb
  have hx := hpos.1
  have hy := hpos.2
  norm_num at hx hy
  have kx := update_get (fun _ => ⟨1, 0, 0⟩)
    (gaussian_dots_generator 300 800 500 fun _ => ((0 : ℝ), (0 : ℝ))) 0 h1 h2
  refine ⟨?_, ?_, by decide⟩
  · show ((App.update (fun _ => ⟨1, 0, 0⟩)
        (gaussian_dots_generator 300 800 500 fun _ => ((0 : ℝ), (0 : ℝ)))).get
          ⟨0, h2⟩).physics.x
      = ((gaussian_dots_generator 300 800 500 fun _ => ((0 : ℝ), (0 : ℝ))).get
          ⟨0, h1⟩).physics.x
    rw [kx]; exact hx
  · show ((App.update (fun _ => ⟨1, 0, 0⟩)
        (gaussian_dots_generator 300 800 500 fun _ => ((0 : ℝ), (0 : ℝ)))).get
          ⟨0, h2⟩).physics.y
      = ((gaussian_dots_generator 300 800 500 fun _ => ((0 : ℝ), (0 : ℝ))).get
          ⟨0, h1⟩).physics.y
    rw [kx]; exact hy

/-- C6 amended: after one update tick from the spawned state, the entity
count is still 300, every entity again holds a behaviour, and each entity's
position differs from its pre-tick position exactly when its sampled
displacement (dx * speed, dy * speed) is nonzero — that is, the position may
also be unchanged when (dx, dy) is not (0, 0) but the sampled speed is 0. -/
theorem update_tick_effects (size width height : ℕ) (sample : ℕ → ℝ × ℝ)
    (draw : ℕ → RandomDraw) :
    (App.update draw (gaussian_dots_generator size width height sample)).length = 300 ∧
    (∀ e ∈ App.update draw (gaussian_dots_generator size width height sample),
      e.behavior = some {}) ∧
    (∀ i (h2 : i < (App.update draw (gaussian_dots_generator size width height sample)).length)
        (h1 : i < (gaussian_dots_generator size width height sample).length),
      (((App.update draw (gaussian_dots_generator size width height sample)).get
            ⟨i, h2⟩).physics.x
          ≠ ((gaussian_dots_generator size width height sample).get ⟨i, h1⟩).physics.x ∨
        ((App.update draw (gaussian_dots_generator size width height sample)).get
            ⟨i, h2⟩).physics.y
          ≠ ((gaussian_dots_generator size width height sample).get ⟨i, h1⟩).physics.y)
        ↔ (((draw i).dx : ℝ) * (draw i).speed ≠ 0 ∨
            ((draw i).dy : ℝ) * (draw i).speed ≠ 0)) := by
  refine ⟨?_, ?_, ?_⟩
  · rw [update_length]; simp [gaussian_dots_generator]
  · intro e he
    obtain ⟨i, e0, he0, rfl⟩ := mem_updateFrom draw 0 _ e he
    exact updateEntity_behavior _ _ _ (spawner_behavior _ _ _ _ _ he0)
  · intro i h2 h1
    have hb := spawner_behavior size width height sample
      ((gaussian_dots_generator size width height sample).get ⟨i, h1⟩) (List.get_mem _ _ _)
    obtain ⟨hx, hy⟩ := updateEntity_position (draw i)
      ((gaussian_dots_generator size width height sample).get ⟨i, h1⟩) {} hb
    rw [update_get draw _ i h1 h2, hx, hy]
    simp [add_right_eq_self]

/-- C6 witness: the amended per-entity clause instantiated at index 0 with
the constant sample (3, 4) and the constant draw (dx, dy, speed) = (1, 1, 2). -/
theorem update_tick_effects_witness :
    (((App.update (fun _ => ⟨1, 1, 2⟩)
          (gaussian_dots_generator 300 800 500 fun _ => ((3 : ℝ), (4 : ℝ)))).get
        ⟨0, by rw [update_length]; simp [gaussian_dots_generator]⟩).physics.x
      ≠ ((gaussian_dots_generator 300 800 500 fun _ => ((3 : ℝ), (4 : ℝ))).get
        ⟨0, by simp [gaussian_dots_generator]⟩).physics.x ∨
      ((App.update (fun _ => ⟨1, 1, 2⟩)
          (gaussian_dots_generator 300 800 500 fun _ => ((3 : ℝ), (4 : ℝ)))).get
        ⟨0, by rw [update_length]; simp [gaussian_dots_generator]⟩).physics.y
      ≠ ((gaussian_dots_generator 300 800 500 fun _ => ((3 : ℝ), (4 : ℝ))).get
        ⟨0, by simp [gaussian_dots_generator]⟩).physics.y)
    ↔ (((1 : ℤ) : ℝ) * 2 ≠ 0 ∨ ((1 : ℤ) : ℝ) * 2 ≠ 0) :=
  (update_tick_effects 300 800 500 (fun _ => ((3 : ℝ), (4 : ℝ))) (fun _ => ⟨1, 1, 2⟩)).2.2 0
    (by rw [update_length]; simp [gaussian_dots_generator])
    (by simp [gaussian_dots_generator])

/-- C10: every entity reachable from the spawned state by any number of
update ticks has its rotation in the nine-value table set
{0, -pi/4, -pi/2, -3pi/4, pi/4, pi/2, 3pi/4, pi}: spawning sets rotation 0
and every Walker step either leaves it unchanged or writes a table value. -/
theorem rotation_always_in_set (size width height : ℕ) (sample : ℕ → ℝ × ℝ)
    (draws : ℕ → ℕ → RandomDraw) (n : ℕ) :
    ∀ e ∈ ticks draws n (gaussian_dots_generator size width height sample),
      e.physics.rotation ∈ rotationSet := by
  induction n with
  | zero =>
      intro e he
      have h0 := spawner_rotation size width height sample e he
      rw [h0]
      simp [rotationSet]
  | succ n ih =>
      intro e he
      obtain ⟨i, e0, he0, rfl⟩ := mem_updateFrom (draws n) 0 _ e he
      exact updateEntity_rotation_mem _ _ (ih e0 he0)

/-- C10 witness: the spawned entity of id 0 under the constant sample (5, 7),
after zero ticks, has its rotation in the table set. -/
theorem rotation_always_in_set_witness :
    ((⟨⟨5, 7, 10, 0⟩, Renderer.circle (color_generator 5 7 800 500), some {}, 0⟩ : Entity)
        ∈ ticks (fun _ _ => ⟨0, 0, 0⟩) 0
          (gaussian_dots_generator 300 800 500 fun _ => ((5 : ℝ), (7 : ℝ)))) ∧
    (⟨⟨5, 7, 10, 0⟩, Renderer.circle (color_generator 5 7 800 500), some {}, 0⟩
      : Entity).physics.rotation ∈ rotationSet := by
  have hm : (⟨⟨5, 7, 10, 0⟩, Renderer.circle (color_generator 5 7 800 500), some {}, 0⟩
      : Entity) ∈ ticks (fun _ _ => ⟨0, 0, 0⟩) 0
        (gaussian_dots_generator 300 800 500 fun _ => ((5 : ℝ), (7 : ℝ))) := by
    show _ ∈ gaussian_dots_generator 300 800 500 fun _ => ((5 : ℝ), (7 : ℝ))
    simp only [gaussian_dots_generator, List.mem_map]
    exact ⟨0, by simp, rfl⟩
  exact ⟨hm, rotation_always_in_set 300 800 500 (fun _ => ((5 : ℝ), (7 : ℝ)))
    (fun _ _ => ⟨0, 0, 0⟩) 0 _ hm⟩

end Nature
